import Mathlib

/-!
Shallow embedding of the ZenML store contract and bootstrap protocol
(`src/zenml/zen_stores/base_zen_store.py`) together with the schema
migration `743ec82b1b3c_update_size_of_build_images.py`.

The store is modelled as an explicit state (`ZenStore`) holding the
backend's persisted entities plus an observable trace of actions: Event
Hook emissions (`StoreAction.emit`) and committed backend mutations
(`StoreAction.commit`).  Fallible operations return `Except ZenError`.
Abstract backend methods (`_create_user`, `_get_user`, `_register_stack`,
...) are embedded according to the behaviour documented in their
docstrings in `base_zen_store.py` (raise conditions, return values).
-/

namespace ZenML

/-- `zenml.enums.StackComponentType`, restricted to the members used by the
bootstrap protocol in `base_zen_store.py`. -/
inductive StackComponentType where
  | ORCHESTRATOR
  | ARTIFACT_STORE
  deriving DecidableEq, Repr

/-- The string value of a `StackComponentType` member (`c.type.value`). -/
def StackComponentType.value : StackComponentType → String
  | .ORCHESTRATOR => "orchestrator"
  | .ARTIFACT_STORE => "artifact_store"

/-- `zenml.utils.analytics_utils.AnalyticsEvent`, restricted to the members
fired by `base_zen_store.py`. -/
inductive AnalyticsEvent where
  | CREATED_DEFAULT_USER
  | CREATED_DEFAULT_PROJECT
  | REGISTERED_DEFAULT_STACK
  | REGISTERED_STACK
  | UPDATED_STACK
  | CREATED_USER
  | CREATED_PROJECT
  | DELETED_USER
  deriving DecidableEq, Repr

/-- The error taxonomy of the store contract: `KeyError` (Not-Found),
`EntityExistsError` / `StackExistsError` (Already-Exists), pydantic
validation failure, `TypeError` and `RuntimeError` with their messages. -/
inductive ZenError where
  | keyError
  | entityExistsError
  | stackExistsError
  | validationError
  | typeError (msg : String)
  | runtimeError (msg : String)
  deriving DecidableEq, Repr

/-- Observable actions of a store run: an Event Hook emission (with
operation tag and metadata mapping) or a committed backend mutation. -/
inductive StoreAction where
  | emit (event : AnalyticsEvent) (metadata : List (String × String))
  | commit (op : String)
  deriving DecidableEq, Repr

/-- `zenml.models.ComponentModel`: name, component type, flavor and the
opaque base64-encoded configuration blob (shape as constructed and
consumed in `base_zen_store.py`). -/
structure ComponentModel where
  name : String
  type : StackComponentType
  flavor : String
  configuration : String
  deriving DecidableEq, Repr

/-- `zenml.models.StackModel`: name, component set and `is_shared` flag
(shape as constructed and consumed in `base_zen_store.py`). -/
structure StackModel where
  name : String
  components : List ComponentModel
  is_shared : Bool
  deriving DecidableEq, Repr

/-- `zenml.models.user_management_models.UserModel` as used here: a name;
the backend assigns the identifier. -/
structure UserModel where
  name : String
  deriving DecidableEq, Repr

/-- `ProjectModel` as used here: a name; the backend assigns the id. -/
structure ProjectModel where
  name : String
  deriving DecidableEq, Repr

/-- A user record as persisted by the backend (name plus assigned id). -/
structure StoredUser where
  name : String
  id : Nat
  deriving DecidableEq, Repr

/-- A project record as persisted by the backend. -/
structure StoredProject where
  name : String
  id : Nat
  deriving DecidableEq, Repr

/-- A stack-component record as persisted by the backend. -/
structure StoredComponent where
  id : Nat
  owner : Option Nat
  project : Option Nat
  component : ComponentModel
  deriving DecidableEq, Repr

/-- A stack record as persisted by the backend. -/
structure StoredStack where
  id : Nat
  name : String
  components : List ComponentModel
  is_shared : Bool
  owner : Option Nat
  project : Option Nat
  deriving DecidableEq, Repr

/-- The state threaded through every store operation: the backend's
persisted entities, the fresh-id counter, the observable action trace,
the `track_analytics` flag of `BaseZenStore`, the store type value and
URL from the store configuration, and the process-wide configuration
root (`GlobalConfiguration().config_directory`). -/
structure ZenStore where
  users : List StoredUser
  projects : List StoredProject
  stackComponents : List StoredComponent
  storedStacks : List StoredStack
  nextId : Nat
  trace : List StoreAction
  track_analytics : Bool
  storeType : String
  url : String
  configDirectory : String
  deriving DecidableEq, Repr

def DEFAULT_USERNAME : String := "default"
def DEFAULT_PROJECT_NAME : String := "default"
def DEFAULT_STACK_NAME : String := "default"

/-! ### base64 / json helpers

`register_default_stack` encodes component configurations with
`base64.urlsafe_b64encode(json.dumps(config).encode())`. -/

/-- The urlsafe base64 alphabet. -/
def b64alphabet : List Char :=
  "ABCDEFGHIJKLMNOPQRSTUVWXYZabcdefghijklmnopqrstuvwxyz0123456789-_".data

/-- The base64 character for a 6-bit value. -/
def b64char (n : Nat) : Char := b64alphabet.getD n 'A'

/-- `base64.urlsafe_b64encode` on a byte list, with `=` padding. -/
def urlsafe_b64encode : List Nat → String
  | [] => ""
  | [a] =>
    String.mk [b64char (a / 4), b64char (a % 4 * 16), '=', '=']
  | [a, b] =>
    String.mk [b64char (a / 4), b64char (a % 4 * 16 + b / 16),
      b64char (b % 16 * 4), '=']
  | a :: b :: c :: rest =>
    String.mk [b64char (a / 4), b64char (a % 4 * 16 + b / 16),
      b64char (b % 16 * 4 + c / 64), b64char (c % 64)]
      ++ urlsafe_b64encode rest

/-- The UTF-8 bytes of a single code point. -/
def charBytes (n : Nat) : List Nat :=
  if n < 128 then [n]
  else if n < 2048 then [192 + n / 64, 128 + n % 64]
  else if n < 65536 then [224 + n / 4096, 128 + n / 64 % 64, 128 + n % 64]
  else [240 + n / 262144, 128 + n / 4096 % 64, 128 + n / 64 % 64, 128 + n % 64]

/-- `str.encode()`: the UTF-8 bytes of a string. -/
def strBytes (s : String) : List Nat :=
  (s.data.map (fun c => charBytes c.toNat)).flatten

/-- `json.dumps` of the empty dict (the orchestrator configuration). -/
def jsonDumpsEmpty : String := "\x7b\x7d"

/-- `json.dumps` of a single-key dict with key `path` (the artifact-store
configuration); the path is assumed to need no JSON escaping. -/
def jsonDumpsPath (p : String) : String :=
  "\x7b\"path\": \"" ++ p ++ "\"\x7d"

/-! ### Event Hook -/

/-- Modelled from the spec: the module-level `track_event` from
`zenml.utils.analytics_utils` (not under `src/`) — the Event Hook
best-effort emission, which fires unconditionally when called and
reports success. -/
def track_event (event : AnalyticsEvent) (metadata : List (String × String))
    (s : ZenStore) : Bool × ZenStore :=
  (true, { s with trace := s.trace ++ [StoreAction.emit event metadata] })

/-- `BaseZenStore._track_event`: forwards to `track_event` only when
`track_analytics` is set, otherwise returns `False` and does nothing. -/
def trackEventIfEnabled (event : AnalyticsEvent)
    (metadata : List (String × String)) (s : ZenStore) : Bool × ZenStore :=
  if s.track_analytics then track_event event metadata s
  else (false, s)

/-! ### Abstract backend operations

Embedded from the docstrings of the corresponding abstract methods in
`base_zen_store.py`: each raises exactly the errors its docstring
documents.  Lookups accept the entity name (the id-string alternative
documented for `_get_user`/`_get_project` is elided: every call in this
file passes a name).  Mutations append a `commit` action at the point
where the backend operation takes effect. -/

/-- `_get_user`: the user with the given name, `KeyError` if absent. -/
def getUserBackend (name : String) (s : ZenStore) :
    Except ZenError StoredUser :=
  match s.users.find? (fun u => u.name = name) with
  | some u => .ok u
  | none => .error .keyError

/-- `_get_project`: the project with the given name, `KeyError` if
absent. -/
def getProjectBackend (name : String) (s : ZenStore) :
    Except ZenError StoredProject :=
  match s.projects.find? (fun p => p.name = name) with
  | some p => .ok p
  | none => .error .keyError

/-- `_create_user`: `EntityExistsError` if a user with the name exists,
otherwise persist a new user with a fresh id. -/
def createUserBackend (user : UserModel) (s : ZenStore) :
    Except ZenError (StoredUser × ZenStore) :=
  if s.users.any (fun u => u.name = user.name) then
    .error .entityExistsError
  else
    let u : StoredUser := ⟨user.name, s.nextId⟩
    .ok (u, { s with
      users := s.users ++ [u]
      nextId := s.nextId + 1
      trace := s.trace ++ [StoreAction.commit "create_user"] })

/-- `_create_project`: `EntityExistsError` if a project with the name
exists, otherwise persist a new project with a fresh id. -/
def createProjectBackend (project : ProjectModel) (s : ZenStore) :
    Except ZenError (StoredProject × ZenStore) :=
  if s.projects.any (fun p => p.name = project.name) then
    .error .entityExistsError
  else
    let p : StoredProject := ⟨project.name, s.nextId⟩
    .ok (p, { s with
      projects := s.projects ++ [p]
      nextId := s.nextId + 1
      trace := s.trace ++ [StoreAction.commit "create_project"] })

/-- `_register_stack_component`: persist a component with a fresh id and
return it; its docstring documents no failure condition. -/
def registerStackComponentBackend (owner : Option Nat) (project : Option Nat)
    (component : ComponentModel) (s : ZenStore) :
    ComponentModel × ZenStore :=
  (component, { s with
    stackComponents :=
      s.stackComponents ++ [⟨s.nextId, owner, project, component⟩]
    nextId := s.nextId + 1
    trace := s.trace ++ [StoreAction.commit "register_stack_component"] })

/-- `_register_stack`: `StackExistsError` if a stack with that name is
already owned by this user on this project, otherwise persist. -/
def registerStackBackend (owner : Option Nat) (project : Option Nat)
    (stack : StackModel) (s : ZenStore) :
    Except ZenError (StoredStack × ZenStore) :=
  if s.storedStacks.any (fun st =>
      st.name = stack.name && st.owner = owner && st.project = project) then
    .error .stackExistsError
  else
    let st : StoredStack :=
      ⟨s.nextId, stack.name, stack.components, stack.is_shared, owner, project⟩
    .ok (st, { s with
      storedStacks := s.storedStacks ++ [st]
      nextId := s.nextId + 1
      trace := s.trace ++ [StoreAction.commit "register_stack"] })

/-- `_update_stack`: `KeyError` if the stack id is absent, otherwise
replace the stack's contents with the supplied model. -/
def updateStackBackend (stack_id : Nat) (stack : StackModel) (s : ZenStore) :
    Except ZenError (StoredStack × ZenStore) :=
  match s.storedStacks.find? (fun st => st.id = stack_id) with
  | none => .error .keyError
  | some old =>
    let st : StoredStack :=
      ⟨old.id, stack.name, stack.components, stack.is_shared,
        old.owner, old.project⟩
    .ok (st, { s with
      storedStacks := s.storedStacks.map (fun x => if x.id = stack_id then st else x)
      trace := s.trace ++ [StoreAction.commit "update_stack"] })

/-- `_delete_stack`: `KeyError` if the stack id is absent, otherwise
remove the stack. -/
def deleteStackBackend (stack_id : Nat) (s : ZenStore) :
    Except ZenError ZenStore :=
  if s.storedStacks.any (fun st => st.id = stack_id) then
    .ok { s with
      storedStacks := s.storedStacks.filter (fun st => st.id ≠ stack_id)
      trace := s.trace ++ [StoreAction.commit "delete_stack"] }
  else .error .keyError

/-- `stacks_empty`: whether no stacks are configured (the cheap existence
probe). -/
def stacks_empty (s : ZenStore) : Bool := s.storedStacks.isEmpty

/-! ### Public store contract operations (`base_zen_store.py`) -/

/-- `get_user` ("No tracking events, here for consistency"). -/
def get_user (user_name : String) (s : ZenStore) : Except ZenError StoredUser :=
  getUserBackend user_name s

/-- `get_project` ("No tracking events, here for consistency"). -/
def get_project (project_name : String) (s : ZenStore) :
    Except ZenError StoredProject :=
  getProjectBackend project_name s

/-- `default_user_id`: `self.get_user(DEFAULT_USERNAME).id` with the
`KeyError` caught and turned into `None`.  `getUserBackend` raises only
`KeyError`, so matching every error case is the `except KeyError` clause. -/
def default_user_id (s : ZenStore) : Option Nat :=
  match get_user DEFAULT_USERNAME s with
  | .ok u => some u.id
  | .error _ => none

/-- `default_project_id`: same pattern as `default_user_id`. -/
def default_project_id (s : ZenStore) : Option Nat :=
  match get_project DEFAULT_PROJECT_NAME s with
  | .ok p => some p.id
  | .error _ => none

/-- `create_default_user`: create the default user only when
`default_user_id` is falsy (`None`), emitting `CREATED_DEFAULT_USER`
before the backend `_create_user` call. -/
def create_default_user (s : ZenStore) : Except ZenError ZenStore :=
  if (default_user_id s).isNone then
    let (_, s1) := trackEventIfEnabled .CREATED_DEFAULT_USER [] s
    (createUserBackend ⟨DEFAULT_USERNAME⟩ s1).map (fun x => x.2)
  else .ok s

/-- `create_default_project`: same pattern as `create_default_user`. -/
def create_default_project (s : ZenStore) : Except ZenError ZenStore :=
  if (default_project_id s).isNone then
    let (_, s1) := trackEventIfEnabled .CREATED_DEFAULT_PROJECT [] s
    (createProjectBackend ⟨DEFAULT_PROJECT_NAME⟩ s1).map (fun x => x.2)
  else .ok s

/-- `create_user`: emits `CREATED_USER` via `_track_event`, then calls the
backend `_create_user`. -/
def create_user (user : UserModel) (s : ZenStore) :
    Except ZenError (StoredUser × ZenStore) :=
  let (_, s1) := trackEventIfEnabled .CREATED_USER [] s
  createUserBackend user s1

/-- `create_project`: emits `CREATED_PROJECT` via `_track_event`, then
calls the backend `_create_project`. -/
def create_project (project : ProjectModel) (s : ZenStore) :
    Except ZenError (StoredProject × ZenStore) :=
  let (_, s1) := trackEventIfEnabled .CREATED_PROJECT [] s
  createProjectBackend project s1

/-- `register_stack_component`: plain delegation to the backend, with no
Event Hook emission. -/
def register_stack_component (user_id : Option Nat) (project_id : Option Nat)
    (component : ComponentModel) (s : ZenStore) : ComponentModel × ZenStore :=
  registerStackComponentBackend user_id project_id component s

/-- The analytics metadata built by `register_stack` / `update_stack`:
the flavor of every component keyed by component type, plus the store
type. -/
def stackEventMetadata (stack : StackModel) (s : ZenStore) :
    List (String × String) :=
  stack.components.map (fun c => (c.type.value, c.flavor))
    ++ [("store_type", s.storeType)]

/-- `register_stack`: emits `REGISTERED_STACK` via `_track_event`, then
calls the backend `_register_stack`. -/
def register_stack (user_id : Option Nat) (project_id : Option Nat)
    (stack : StackModel) (s : ZenStore) :
    Except ZenError (StoredStack × ZenStore) :=
  let (_, s1) := trackEventIfEnabled .REGISTERED_STACK
    (stackEventMetadata stack s) s
  registerStackBackend user_id project_id stack s1

/-- `update_stack`: emits `UPDATED_STACK` through the module-level
`track_event` (not `self._track_event`), then calls the backend
`_update_stack`. -/
def update_stack (stack_id : Nat) (stack : StackModel) (s : ZenStore) :
    Except ZenError (StoredStack × ZenStore) :=
  let (_, s1) := track_event .UPDATED_STACK (stackEventMetadata stack s) s
  updateStackBackend stack_id stack s1

/-- `delete_stack`: plain delegation to the backend ("No tracking events,
here for consistency"). -/
def delete_stack (stack_id : Nat) (s : ZenStore) : Except ZenError ZenStore :=
  deleteStackBackend stack_id s

/-! ### Stack model construction -/

/-- Modelled from the spec: construction/validation of `StackModel`
(`zenml.models`, not under `src/`) — "A Stack's component set contains at
most one component per component type" and `register_stack` with a
duplicate-type set "fails validation before persistence".  Construction
fails when two components share a component type. -/
def mkStackModel (name : String) (components : List ComponentModel)
    (is_shared : Bool) : Except ZenError StackModel :=
  if (components.map ComponentModel.type).Nodup then
    .ok ⟨name, components, is_shared⟩
  else .error .validationError

/-- One step of building the Python dict
`\x7bc.type: c for c in [...]\x7d`: insert keyed by component type,
overwriting an existing entry in place. -/
def dictInsertByType (cs : List ComponentModel) (c : ComponentModel) :
    List ComponentModel :=
  if cs.any (fun x => x.type = c.type) then
    cs.map (fun x => if x.type = c.type then c else x)
  else cs ++ [c]

/-- The values of the Python dict `\x7bc.type: c for c in cs\x7d` in
insertion order. -/
def dictByType (cs : List ComponentModel) : List ComponentModel :=
  cs.foldl dictInsertByType []

/-! ### Bootstrap protocol -/

/-- The orchestrator configuration blob:
`base64.urlsafe_b64encode(json.dumps(\x7b\x7d).encode())`. -/
def encodedOrchestratorConfig : String :=
  urlsafe_b64encode (strBytes jsonDumpsEmpty)

/-- `os.path.join(GlobalConfiguration().config_directory, "local_stores",
"default_local_store")`. -/
def defaultLocalStorePath (configDirectory : String) : String :=
  configDirectory ++ "/local_stores/default_local_store"

/-- The artifact-store configuration blob for a given configuration
root. -/
def encodedArtifactStoreConfig (configDirectory : String) : String :=
  urlsafe_b64encode (strBytes (jsonDumpsPath (defaultLocalStorePath configDirectory)))

/-- `register_default_stack`: register the default orchestrator and
artifact-store components (via the public `register_stack_component`,
which emits nothing), assemble the shared default `StackModel`, register
it via the backend `_register_stack` (not the public `register_stack`),
and finally emit `REGISTERED_DEFAULT_STACK`. -/
def register_default_stack (s : ZenStore) : Except ZenError ZenStore := do
  let (orchestrator, s1) := register_stack_component
    (default_user_id s) (default_project_id s)
    ⟨"default", .ORCHESTRATOR, "default", encodedOrchestratorConfig⟩ s
  let (artifact_store, s2) := register_stack_component
    (default_user_id s1) (default_project_id s1)
    ⟨"default", .ARTIFACT_STORE, "default",
      encodedArtifactStoreConfig s1.configDirectory⟩ s1
  let components := dictByType [orchestrator, artifact_store]
  let stack ← mkStackModel "default" components true
  let (_, s3) ← registerStackBackend
    (default_user_id s2) (default_project_id s2) stack s2
  let (_, s4) := trackEventIfEnabled .REGISTERED_DEFAULT_STACK [] s3
  return s4

/-- `_initialize_database`: create the default user and project (each a
no-op when present), then register the default stack if and only if the
`stacks_empty` probe reports no stack at all. -/
def initialize_database (s : ZenStore) : Except ZenError ZenStore := do
  let s1 ← create_default_user s
  let s2 ← create_default_project s1
  if stacks_empty s2 then register_default_stack s2 else return s2

/-- `BaseZenStore.__init__`: run the backend `_initialize` (whose outcome
is the `initResult` parameter); any exception is wrapped into a
`RuntimeError` naming the store type and URL; on success the database is
initialized unless `skip_default_registrations` is set. -/
def init_store (initResult : Except String Unit)
    (skip_default_registrations : Bool) (s : ZenStore) :
    Except ZenError ZenStore :=
  match initResult with
  | .error e => .error (.runtimeError
      ("Error initializing " ++ s.storeType ++ " store with URL '"
        ++ s.url ++ "': " ++ e))
  | .ok _ =>
    if skip_default_registrations then .ok s else initialize_database s

/-! ### Store factory -/

/-- `zenml.enums.StoreType`. -/
inductive StoreType where
  | sql
  | rest
  deriving DecidableEq, Repr

/-- The string value of a `StoreType` member. -/
def StoreType.value : StoreType → String
  | .sql => "sql"
  | .rest => "rest"

/-- The concrete store implementation classes. -/
inductive StoreClass where
  | SqlZenStore
  deriving DecidableEq, Repr

/-- `zenml.config.store_config.StoreConfiguration`, restricted to the
fields the factory reads. -/
structure StoreConfiguration where
  type : StoreType
  url : String
  deriving DecidableEq, Repr

/-- The dict literal in `get_store_class` (`StoreType.REST` is commented
out in the source). -/
def storeClassFor : StoreType → Option StoreClass
  | .sql => some .SqlZenStore
  | .rest => none

/-- `get_store_class`: resolve a store type to its implementation class,
raising `TypeError` naming the type value when the dict lookup misses. -/
def get_store_class (type : StoreType) : Except ZenError StoreClass :=
  match storeClassFor type with
  | some c => .ok c
  | none => .error (.typeError
      ("No store implementation found for store type `"
        ++ type.value ++ "`."))

/-- `create_store`: resolve the class via `get_store_class`, then
construct the store (`__init__`, including bootstrap). -/
def create_store (config : StoreConfiguration)
    (skip_default_registrations : Bool) (initResult : Except String Unit)
    (s : ZenStore) : Except ZenError (StoreClass × ZenStore) := do
  let cls ← get_store_class config.type
  let s1 ← init_store initResult skip_default_registrations
    { s with storeType := config.type.value, url := config.url }
  return (cls, s1)

end ZenML

namespace Migration743ec82b1b3c

/-!
Embedding of
`src/zenml/zen_stores/migrations/versions/743ec82b1b3c_update_size_of_build_images.py`
as a structural transformation on a database schema.
-/

/-- MySQL dialect types used by the migration. -/
inductive MysqlType where
  | MEDIUMTEXT
  deriving DecidableEq, Repr

/-- The SQLAlchemy column-type expressions appearing in the migration:
`sa.TEXT()`, `sa.String(length=n)` and `.with_variant(v, dialect)`. -/
inductive SaType where
  | TEXT
  | StringLen (length : Nat)
  | withVariant (base : SaType) (variant : MysqlType) (dialect : String)
  deriving DecidableEq, Repr

/-- A schema column: name, type and nullability. -/
structure Column where
  name : String
  ctype : SaType
  nullable : Bool
  deriving DecidableEq, Repr

/-- A schema table. -/
structure Table where
  name : String
  columns : List Column
  deriving DecidableEq, Repr

/-- `batch_op.alter_column(col, type_=newType)` inside
`op.batch_alter_table(table)`: set the type of the named column of the
named table, leaving nullability and everything else unchanged. -/
def alter_column (table : String) (col : String) (newType : SaType)
    (schema : List Table) : List Table :=
  schema.map (fun t =>
    if t.name = table then
      { t with columns := t.columns.map (fun c =>
          if c.name = col then { c with ctype := newType } else c) }
    else t)

/-- `sa.String(length=16777215).with_variant(mysql.MEDIUMTEXT(), "mysql")`. -/
def buildImagesWideType : SaType :=
  .withVariant (.StringLen 16777215) .MEDIUMTEXT "mysql"

/-- `upgrade`: alter `pipeline_build.images` from `TEXT` to the wide
string type. -/
def upgrade (schema : List Table) : List Table :=
  alter_column "pipeline_build" "images" buildImagesWideType schema

/-- `downgrade`: alter `pipeline_build.images` from the wide string type
back to `TEXT`. -/
def downgrade (schema : List Table) : List Table :=
  alter_column "pipeline_build" "images" .TEXT schema

/-- The type of a column of a schema, through first-match lookup. -/
def column_type (table : String) (col : String) (schema : List Table) :
    Option SaType :=
  (schema.find? (fun t => t.name = table)).bind (fun t =>
    (t.columns.find? (fun c => c.name = col)).map (fun c => c.ctype))

/-- The nullability of a column of a schema. -/
def column_nullable (table : String) (col : String) (schema : List Table) :
    Option Bool :=
  (schema.find? (fun t => t.name = table)).bind (fun t =>
    (t.columns.find? (fun c => c.name = col)).map (fun c => c.nullable))

end Migration743ec82b1b3c

namespace ZenML

/-! ### Shared helpers for the verification theorems -/

@[simp]
lemma ok_bind {ε α β : Type} (a : α) (f : α → Except ε β) :
    (Except.ok a : Except ε α) >>= f = f a := rfl

@[simp]
lemma error_bind {ε α β : Type} (e : ε) (f : α → Except ε β) :
    (Except.error e : Except ε α) >>= f = Except.error e := rfl

/-- The backend-visible part of a store state: everything except the
action trace and the analytics flag. -/
def coreOf (s : ZenStore) :
    List StoredUser × List StoredProject × List StoredComponent
      × List StoredStack × Nat :=
  (s.users, s.projects, s.stackComponents, s.storedStacks, s.nextId)

/-- The Event Hook emissions of a trace, in order. -/
def emitsOf (tr : List StoreAction) :
    List (AnalyticsEvent × List (String × String)) :=
  tr.filterMap (fun a => match a with
    | .emit e m => some (e, m)
    | .commit _ => none)

/-- A fresh store state over an empty backend. -/
def emptyStore : ZenStore :=
  { users := [], projects := [], stackComponents := [], storedStacks := []
    nextId := 0, trace := [], track_analytics := true
    storeType := "sql", url := "sqlite:///zenml.db"
    configDirectory := "/root/.config/zenml" }

/-- The default orchestrator component registered by bootstrap. -/
def defaultOrchestrator : ComponentModel :=
  ⟨"default", .ORCHESTRATOR, "default", encodedOrchestratorConfig⟩

/-- The default artifact-store component registered by bootstrap for a
given configuration root. -/
def defaultArtifactStore (configDirectory : String) : ComponentModel :=
  ⟨"default", .ARTIFACT_STORE, "default",
    encodedArtifactStoreConfig configDirectory⟩

/-- A store state over a backend already seeded with the default user,
project and stack (the state reached by a first bootstrap, with the
trace cleared). -/
def seededStore : ZenStore :=
  { emptyStore with
    users := [⟨"default", 0⟩]
    projects := [⟨"default", 1⟩]
    stackComponents :=
      [⟨2, some 0, some 1, defaultOrchestrator⟩,
       ⟨3, some 0, some 1, defaultArtifactStore "/root/.config/zenml"⟩]
    storedStacks :=
      [⟨4, "default",
        [defaultOrchestrator, defaultArtifactStore "/root/.config/zenml"],
        true, some 0, some 1⟩]
    nextId := 5 }

/-! ### C6: initialization failure wrapping -/

/-- C6: if the backend `_initialize` step of store construction raises
any exception, `__init__` wraps it into a fatal `RuntimeError` whose
message names the store type and target URL and re-raises it, so
construction fails entirely and no store state is returned. -/
theorem init_failure_wrapped (e : String) (skip : Bool) (s : ZenStore) :
    init_store (.error e) skip s = .error (.runtimeError
      ("Error initializing " ++ s.storeType ++ " store with URL '"
        ++ s.url ++ "': " ++ e)) := rfl

/-! ### C7: store factory type errors -/

/-- C7: resolving a configuration whose backend kind has no registered
implementation (`rest`, commented out in the source) fails in the static
factory with a `TypeError` naming the kind, independently of the backend
state and before any construction step; a supported kind (`sql`)
resolves to its store class. -/
theorem store_factory_type_error :
    (∀ (u : String) (skip : Bool) (initResult : Except String Unit)
        (s : ZenStore),
      create_store ⟨.rest, u⟩ skip initResult s
        = .error (.typeError
            "No store implementation found for store type `rest`."))
    ∧ get_store_class .sql = .ok .SqlZenStore
    ∧ (∀ (cfg : StoreConfiguration) (skip : Bool)
        (initResult : Except String Unit) (s : ZenStore) (r : StoreClass × ZenStore),
      create_store cfg skip initResult s = .ok r →
        get_store_class cfg.type = .ok r.1) := by
  refine ⟨fun u skip initResult s => rfl, rfl, ?_⟩
  intro cfg skip initResult s r h
  cases htype : cfg.type with
  | sql => cases r with
    | mk cls s2 => cases cls; rfl
  | rest =>
    rw [create_store, htype] at h
    simp only [get_store_class, storeClassFor, error_bind] at h
    cases h

/-- Witness for C7: instantiating the factory conjuncts at concrete
inputs. -/
theorem store_factory_type_error_witness :
    create_store ⟨.rest, "http://zenml.example"⟩ false (.ok ()) emptyStore
      = .error (.typeError
          "No store implementation found for store type `rest`.")
    ∧ get_store_class (StoreConfiguration.mk .sql "sqlite:///zenml.db").type
        = .ok ((StoreClass.SqlZenStore,
            { emptyStore with url := "sqlite:///zenml.db" }) :
              StoreClass × ZenStore).1 :=
  ⟨store_factory_type_error.1 "http://zenml.example" false (.ok ()) emptyStore,
    store_factory_type_error.2.2 ⟨.sql, "sqlite:///zenml.db"⟩ true (.ok ())
      emptyStore (StoreClass.SqlZenStore,
        { emptyStore with url := "sqlite:///zenml.db" }) (by rfl)⟩

/-! ### C9: default id lookups return None instead of Not-Found -/

/-- C9: `default_user_id` / `default_project_id` perform a fresh name
lookup on each access; when no user (project) named `"default"` exists
the underlying `get_user` (`get_project`) raises `KeyError`, which the
property swallows, returning `None`; when the entity exists its id is
returned. -/
theorem default_ids_swallow_not_found (s : ZenStore) :
    ((s.users.find? (fun u => u.name = DEFAULT_USERNAME) = none) →
      get_user DEFAULT_USERNAME s = .error .keyError
      ∧ default_user_id s = none)
    ∧ (∀ u, s.users.find? (fun x => x.name = DEFAULT_USERNAME) = some u →
        default_user_id s = some u.id)
    ∧ ((s.projects.find? (fun p => p.name = DEFAULT_PROJECT_NAME) = none) →
      get_project DEFAULT_PROJECT_NAME s = .error .keyError
      ∧ default_project_id s = none)
    ∧ (∀ p, s.projects.find? (fun x => x.name = DEFAULT_PROJECT_NAME) = some p →
        default_project_id s = some p.id) := by
  refine ⟨fun h => ⟨?_, ?_⟩, fun u h => ?_, fun h => ⟨?_, ?_⟩, fun p h => ?_⟩
  all_goals
    simp [default_user_id, default_project_id, get_user, get_project,
      getUserBackend, getProjectBackend, h]

/-- Witness for C9: on an empty backend both ids are `None`; on the
seeded backend they are the stored ids. -/
theorem default_ids_swallow_not_found_witness :
    default_user_id emptyStore = none
    ∧ default_project_id emptyStore = none
    ∧ default_user_id seededStore = some 0
    ∧ default_project_id seededStore = some 1 := by
  refine ⟨((default_ids_swallow_not_found emptyStore).1 (by decide)).2,
    ((default_ids_swallow_not_found emptyStore).2.2.1 (by decide)).2,
    (default_ids_swallow_not_found seededStore).2.1 ⟨"default", 0⟩ (by decide),
    (default_ids_swallow_not_found seededStore).2.2.2 ⟨"default", 1⟩ (by decide)⟩

end ZenML

namespace Migration743ec82b1b3c

/-! ### C8: the downgrade inverts the upgrade -/

lemma alter_cols_twice (cl : String) (ty1 ty2 : SaType)
    (cols : List Column) :
    (cols.map (fun c => if c.name = cl then { c with ctype := ty1 } else c)).map
        (fun c => if c.name = cl then { c with ctype := ty2 } else c)
      = cols.map (fun c => if c.name = cl then { c with ctype := ty2 } else c) := by
  rw [List.map_map]
  apply List.map_congr_left
  intro c _
  by_cases hc : c.name = cl <;> simp [hc]

lemma alter_column_alter_column (tb cl : String) (ty1 ty2 : SaType)
    (schema : List Table) :
    alter_column tb cl ty2 (alter_column tb cl ty1 schema)
      = alter_column tb cl ty2 schema := by
  induction schema with
  | nil => rfl
  | cons t ts ih =>
    simp only [alter_column, List.map_cons] at ih ⊢
    refine congrArg₂ List.cons ?_ ih
    by_cases ht : t.name = tb
    · simp only [if_pos ht, ht]
      simp [alter_cols_twice]
      intro a _
      by_cases hc : a.name = cl <;> simp [hc]
    · simp [if_neg ht, ht]

lemma alter_column_eq_self (tb cl : String) (ty : SaType)
    (schema : List Table)
    (h : ∀ t ∈ schema, t.name = tb →
      ∀ c ∈ t.columns, c.name = cl → c.ctype = ty) :
    alter_column tb cl ty schema = schema := by
  induction schema with
  | nil => rfl
  | cons t ts ih =>
    simp only [alter_column, List.map_cons]
    have hts : alter_column tb cl ty ts = ts :=
      ih (fun t' ht' => h t' (List.mem_cons_of_mem _ ht'))
    simp only [alter_column] at hts
    rw [hts]
    by_cases ht : t.name = tb
    · have hcols : t.columns.map (fun c =>
          if c.name = cl then { c with ctype := ty } else c) = t.columns := by
        have hpt : ∀ c ∈ t.columns,
            (if c.name = cl then { c with ctype := ty } else c) = id c := by
          intro c hc
          by_cases hcn : c.name = cl
          · have hty := h t (List.mem_cons_self t ts) ht c hc hcn
            cases c
            simp_all
          · simp [hcn]
        rw [List.map_congr_left hpt, List.map_id]
      rw [if_pos ht, hcols]
    · simp [ht]

lemma cols_find_ctype_alter (cl : String) (ty : SaType) (cols : List Column) :
    ((cols.map (fun c => if c.name = cl then { c with ctype := ty } else c)).find?
        (fun c => c.name = cl)).map (fun c => c.ctype)
      = ((cols.find? (fun c => c.name = cl)).map (fun c => c.ctype)).map
          (fun _ => ty) := by
  induction cols with
  | nil => rfl
  | cons c cs ih =>
    by_cases hc : c.name = cl
    · simp [List.find?_cons, hc]
    · simpa [List.find?_cons, hc] using ih

lemma cols_find_nullable_alter (cl : String) (ty : SaType)
    (cols : List Column) :
    ((cols.map (fun c => if c.name = cl then { c with ctype := ty } else c)).find?
        (fun c => c.name = cl)).map (fun c => c.nullable)
      = (cols.find? (fun c => c.name = cl)).map (fun c => c.nullable) := by
  induction cols with
  | nil => rfl
  | cons c cs ih =>
    by_cases hc : c.name = cl
    · simp [List.find?_cons, hc]
    · simpa [List.find?_cons, hc] using ih

lemma column_type_alter (tb cl : String) (ty : SaType)
    (schema : List Table) :
    column_type tb cl (alter_column tb cl ty schema)
      = (column_type tb cl schema).map (fun _ => ty) := by
  induction schema with
  | nil => rfl
  | cons t ts ih =>
    by_cases ht : t.name = tb
    · unfold column_type alter_column
      simp only [List.map_cons, if_pos ht]
      rw [List.find?_cons_of_pos _ (by simp [ht]),
        List.find?_cons_of_pos _ (by simpa using ht)]
      simp only [Option.some_bind]
      exact cols_find_ctype_alter cl ty t.columns
    · unfold column_type alter_column at ih ⊢
      simp only [List.map_cons, if_neg ht]
      rw [List.find?_cons_of_neg _ (by simp [ht]),
        List.find?_cons_of_neg _ (by simpa using ht)]
      exact ih

lemma column_nullable_alter (tb cl : String) (ty : SaType)
    (schema : List Table) :
    column_nullable tb cl (alter_column tb cl ty schema)
      = column_nullable tb cl schema := by
  induction schema with
  | nil => rfl
  | cons t ts ih =>
    by_cases ht : t.name = tb
    · unfold column_nullable alter_column
      simp only [List.map_cons, if_pos ht]
      rw [List.find?_cons_of_pos _ (by simp [ht]),
        List.find?_cons_of_pos _ (by simpa using ht)]
      simp only [Option.some_bind]
      exact cols_find_nullable_alter cl ty t.columns
    · unfold column_nullable alter_column at ih ⊢
      simp only [List.map_cons, if_neg ht]
      rw [List.find?_cons_of_neg _ (by simp [ht]),
        List.find?_cons_of_neg _ (by simpa using ht)]
      exact ih

/-- C8: for revision 743ec82b1b3c, on a schema whose `pipeline_build.images`
column has type `TEXT` (the `existing_type` the migration declares),
`downgrade` exactly inverts `upgrade`: the round trip reproduces the
schema; `upgrade` changes the `images` column type from `TEXT` to
`String(16777215)` with a MySQL `MEDIUMTEXT` variant, leaving nullability
unchanged. -/
theorem migration_743ec82b1b3c_roundtrip (schema : List Table)
    (h : ∀ t ∈ schema, t.name = "pipeline_build" →
      ∀ c ∈ t.columns, c.name = "images" → c.ctype = .TEXT) :
    downgrade (upgrade schema) = schema
    ∧ column_type "pipeline_build" "images" (upgrade schema)
        = (column_type "pipeline_build" "images" schema).map
            (fun _ => buildImagesWideType)
    ∧ column_nullable "pipeline_build" "images" (upgrade schema)
        = column_nullable "pipeline_build" "images" schema := by
  refine ⟨?_, ?_, ?_⟩
  · unfold downgrade upgrade
    rw [alter_column_alter_column]
    exact alter_column_eq_self _ _ _ _ h
  · exact column_type_alter _ _ _ _
  · exact column_nullable_alter _ _ _ _

/-- A sample schema at the predecessor revision: `pipeline_build.images`
is a non-nullable `TEXT` column. -/
def sampleSchema : List Table :=
  [⟨"pipeline_build",
    [⟨"id", .StringLen 36, false⟩, ⟨"images", .TEXT, false⟩]⟩,
   ⟨"pipeline_run", [⟨"id", .StringLen 36, false⟩]⟩]

/-- Witness for C8: the round trip on the sample schema. -/
theorem migration_743ec82b1b3c_roundtrip_witness :
    downgrade (upgrade sampleSchema) = sampleSchema
    ∧ column_type "pipeline_build" "images" (upgrade sampleSchema)
        = some buildImagesWideType :=
  ⟨(migration_743ec82b1b3c_roundtrip sampleSchema (by decide)).1,
    by
      rw [(migration_743ec82b1b3c_roundtrip sampleSchema (by decide)).2.1]
      decide⟩

end Migration743ec82b1b3c

namespace ZenML

/-! ### C1: bootstrap idempotence -/

/-- C1: constructing a store (with default registrations enabled) against
a backend that already holds the default user, the default project and
some stack is a no-op apart from the existence probes: the construction
returns the state unchanged — in particular no Already-Exists error
reaches the caller, nothing is created, and no action (emission or
commit) is appended to the trace. -/
theorem bootstrap_idempotent (s : ZenStore) (u : StoredUser)
    (p : StoredProject)
    (hu : s.users.find? (fun x => x.name = DEFAULT_USERNAME) = some u)
    (hp : s.projects.find? (fun x => x.name = DEFAULT_PROJECT_NAME) = some p)
    (hs : s.storedStacks ≠ []) :
    init_store (.ok ()) false s = .ok s := by
  have hdu : default_user_id s = some u.id := by
    simp [default_user_id, get_user, getUserBackend, hu]
  have hdp : default_project_id s = some p.id := by
    simp [default_project_id, get_project, getProjectBackend, hp]
  have hcdu : create_default_user s = .ok s := by
    simp [create_default_user, hdu]
  have hcdp : create_default_project s = .ok s := by
    simp [create_default_project, hdp]
  have hse : stacks_empty s = false := by
    cases h : s.storedStacks with
    | nil => exact absurd h hs
    | cons a l => simp [stacks_empty, h]
  show initialize_database s = .ok s
  rw [initialize_database]
  rw [hcdu, ok_bind, hcdp, ok_bind, hse]
  rfl

/-- Witness for C1: a second bootstrap against the seeded backend
changes nothing. -/
theorem bootstrap_idempotent_witness :
    init_store (.ok ()) false seededStore = .ok seededStore :=
  bootstrap_idempotent seededStore ⟨"default", 0⟩ ⟨"default", 1⟩
    (by decide) (by decide) (by decide)

end ZenML

namespace ZenML

/-! ### Supporting lemmas for the bootstrap analysis -/

lemma trackEventIfEnabled_state (e : AnalyticsEvent)
    (md : List (String × String)) (s : ZenStore) :
    ∃ b eδ, trackEventIfEnabled e md s = (b, { s with trace := s.trace ++ eδ })
      ∧ (∀ a ∈ eδ, a = StoreAction.emit e md)
      ∧ eδ = (if s.track_analytics then [StoreAction.emit e md] else []) := by
  by_cases h : s.track_analytics
  · exact ⟨true, [StoreAction.emit e md],
      by simp [trackEventIfEnabled, track_event, h], by simp, by simp [h]⟩
  · refine ⟨false, [], ?_, by simp, by simp [h]⟩
    have hsame : ({ s with trace := s.trace ++ [] } : ZenStore) = s := by simp
    rw [hsame, trackEventIfEnabled, if_neg h]

lemma mkStackModel_ok (name : String) (components : List ComponentModel)
    (is_shared : Bool) (h : (components.map ComponentModel.type).Nodup) :
    mkStackModel name components is_shared = .ok ⟨name, components, is_shared⟩ := by
  simp [mkStackModel, h]

lemma dictByType_pair (o a : ComponentModel) (h : o.type ≠ a.type) :
    dictByType [o, a] = [o, a] := by
  simp [dictByType, dictInsertByType, List.foldl, h]

lemma create_default_user_frame (s : ZenStore) :
    ∃ s₁ δ, create_default_user s = .ok s₁
      ∧ s₁.storedStacks = s.storedStacks
      ∧ s₁.trace = s.trace ++ δ
      ∧ StoreAction.commit "register_stack" ∉ δ := by
  by_cases h : (default_user_id s).isNone
  · have hf : s.users.find? (fun x => x.name = DEFAULT_USERNAME) = none := by
      cases hfind : s.users.find? (fun x => x.name = DEFAULT_USERNAME) with
      | none => rfl
      | some u => simp [default_user_id, get_user, getUserBackend, hfind] at h
    have hany : s.users.any (fun x => x.name = DEFAULT_USERNAME) = false := by
      rw [List.any_eq_false]
      intro x hx
      simpa using List.find?_eq_none.mp hf x hx
    obtain ⟨b, eδ, hpair, hall, -⟩ :=
      trackEventIfEnabled_state .CREATED_DEFAULT_USER [] s
    refine ⟨{ s with
        users := s.users ++ [⟨DEFAULT_USERNAME, s.nextId⟩]
        nextId := s.nextId + 1
        trace := (s.trace ++ eδ) ++ [StoreAction.commit "create_user"] },
      eδ ++ [StoreAction.commit "create_user"], ?_, rfl, by simp, ?_⟩
    · simp [create_default_user, h, hpair, createUserBackend, hany,
        Except.map]
    · intro hmem
      rcases List.mem_append.mp hmem with hm | hm
      · simpa using hall _ hm
      · exact absurd (List.mem_singleton.mp hm) (by decide)
  · exact ⟨s, [], by simp [create_default_user, h], rfl, by simp, by simp⟩

lemma create_default_project_frame (s : ZenStore) :
    ∃ s₁ δ, create_default_project s = .ok s₁
      ∧ s₁.storedStacks = s.storedStacks
      ∧ s₁.trace = s.trace ++ δ
      ∧ StoreAction.commit "register_stack" ∉ δ := by
  by_cases h : (default_project_id s).isNone
  · have hf : s.projects.find? (fun x => x.name = DEFAULT_PROJECT_NAME) = none := by
      cases hfind : s.projects.find? (fun x => x.name = DEFAULT_PROJECT_NAME) with
      | none => rfl
      | some p => simp [default_project_id, get_project, getProjectBackend, hfind] at h
    have hany : s.projects.any (fun x => x.name = DEFAULT_PROJECT_NAME) = false := by
      rw [List.any_eq_false]
      intro x hx
      simpa using List.find?_eq_none.mp hf x hx
    obtain ⟨b, eδ, hpair, hall, -⟩ :=
      trackEventIfEnabled_state .CREATED_DEFAULT_PROJECT [] s
    refine ⟨{ s with
        projects := s.projects ++ [⟨DEFAULT_PROJECT_NAME, s.nextId⟩]
        nextId := s.nextId + 1
        trace := (s.trace ++ eδ) ++ [StoreAction.commit "create_project"] },
      eδ ++ [StoreAction.commit "create_project"], ?_, rfl, by simp, ?_⟩
    · simp [create_default_project, h, hpair, createProjectBackend, hany,
        Except.map]
    · intro hmem
      rcases List.mem_append.mp hmem with hm | hm
      · simpa using hall _ hm
      · exact absurd (List.mem_singleton.mp hm) (by decide)
  · exact ⟨s, [], by simp [create_default_project, h], rfl, by simp, by simp⟩

lemma register_default_stack_frame (s : ZenStore) (hs : s.storedStacks = []) :
    ∃ s₃ δ, register_default_stack s = .ok s₃
      ∧ s₃.trace = s.trace ++ δ
      ∧ StoreAction.commit "register_stack" ∈ δ := by
  have hdict : dictByType [(⟨"default", .ORCHESTRATOR, "default",
        encodedOrchestratorConfig⟩ : ComponentModel),
      ⟨"default", .ARTIFACT_STORE, "default",
        encodedArtifactStoreConfig s.configDirectory⟩]
      = [⟨"default", .ORCHESTRATOR, "default", encodedOrchestratorConfig⟩,
         ⟨"default", .ARTIFACT_STORE, "default",
           encodedArtifactStoreConfig s.configDirectory⟩] :=
    dictByType_pair _ _ (by simp)
  have hmk : mkStackModel "default"
      [(⟨"default", .ORCHESTRATOR, "default",
          encodedOrchestratorConfig⟩ : ComponentModel),
       ⟨"default", .ARTIFACT_STORE, "default",
         encodedArtifactStoreConfig s.configDirectory⟩] true
      = .ok ⟨"default",
          [⟨"default", .ORCHESTRATOR, "default", encodedOrchestratorConfig⟩,
           ⟨"default", .ARTIFACT_STORE, "default",
             encodedArtifactStoreConfig s.configDirectory⟩], true⟩ :=
    mkStackModel_ok _ _ _ (by simp)
  by_cases htr : s.track_analytics
  · refine ⟨{ s with
        stackComponents := s.stackComponents ++
          [⟨s.nextId, default_user_id s, default_project_id s,
            ⟨"default", .ORCHESTRATOR, "default", encodedOrchestratorConfig⟩⟩,
           ⟨s.nextId + 1, default_user_id s, default_project_id s,
            ⟨"default", .ARTIFACT_STORE, "default",
              encodedArtifactStoreConfig s.configDirectory⟩⟩]
        storedStacks := s.storedStacks ++
          [⟨s.nextId + 2, "default",
            [⟨"default", .ORCHESTRATOR, "default", encodedOrchestratorConfig⟩,
             ⟨"default", .ARTIFACT_STORE, "default",
               encodedArtifactStoreConfig s.configDirectory⟩],
            true, default_user_id s, default_project_id s⟩]
        nextId := s.nextId + 3
        trace := s.trace ++ [StoreAction.commit "register_stack_component",
          StoreAction.commit "register_stack_component",
          StoreAction.commit "register_stack",
          StoreAction.emit .REGISTERED_DEFAULT_STACK []] },
      [StoreAction.commit "register_stack_component",
        StoreAction.commit "register_stack_component",
        StoreAction.commit "register_stack",
        StoreAction.emit .REGISTERED_DEFAULT_STACK []], ?_, rfl, by simp⟩
    simp [register_default_stack, register_stack_component,
      registerStackComponentBackend, hdict, hmk, registerStackBackend, hs,
      trackEventIfEnabled, track_event, htr, default_user_id, get_user,
      getUserBackend, default_project_id, get_project, getProjectBackend]
  · refine ⟨{ s with
        stackComponents := s.stackComponents ++
          [⟨s.nextId, default_user_id s, default_project_id s,
            ⟨"default", .ORCHESTRATOR, "default", encodedOrchestratorConfig⟩⟩,
           ⟨s.nextId + 1, default_user_id s, default_project_id s,
            ⟨"default", .ARTIFACT_STORE, "default",
              encodedArtifactStoreConfig s.configDirectory⟩⟩]
        storedStacks := s.storedStacks ++
          [⟨s.nextId + 2, "default",
            [⟨"default", .ORCHESTRATOR, "default", encodedOrchestratorConfig⟩,
             ⟨"default", .ARTIFACT_STORE, "default",
               encodedArtifactStoreConfig s.configDirectory⟩],
            true, default_user_id s, default_project_id s⟩]
        nextId := s.nextId + 3
        trace := s.trace ++ [StoreAction.commit "register_stack_component",
          StoreAction.commit "register_stack_component",
          StoreAction.commit "register_stack"] },
      [StoreAction.commit "register_stack_component",
        StoreAction.commit "register_stack_component",
        StoreAction.commit "register_stack"], ?_, rfl, by simp⟩
    simp [register_default_stack, register_stack_component,
      registerStackComponentBackend, hdict, hmk, registerStackBackend, hs,
      trackEventIfEnabled, track_event, htr, default_user_id, get_user,
      getUserBackend, default_project_id, get_project, getProjectBackend]

/-! ### C3: the default stack is registered iff the probe reports empty -/

/-- C3: during bootstrap, the default-stack registration step runs if and
only if the `stacks_empty` probe reports that no stack at all exists: a
`register_stack` backend commit appears in the actions of the run exactly
when the backend held no stack, and whenever any stack exists — default
or not — the stack table is left untouched. -/
theorem default_stack_iff_probe (s s' : ZenStore)
    (h : initialize_database s = .ok s') :
    (StoreAction.commit "register_stack" ∈ s'.trace.drop s.trace.length
      ↔ s.storedStacks = [])
    ∧ (s.storedStacks ≠ [] → s'.storedStacks = s.storedStacks) := by
  obtain ⟨s₁, δ₁, h1, hst1, htr1, hnot1⟩ := create_default_user_frame s
  obtain ⟨s₂, δ₂, h2, hst2, htr2, hnot2⟩ := create_default_project_frame s₁
  rw [initialize_database, h1, ok_bind, h2, ok_bind] at h
  by_cases hs : s.storedStacks = []
  · have hse : stacks_empty s₂ = true := by
      simp [stacks_empty, hst2, hst1, hs]
    rw [hse] at h
    simp only [if_true] at h
    obtain ⟨s₃, δ₃, h3, htr3, hmem3⟩ :=
      register_default_stack_frame s₂ (by rw [hst2, hst1, hs])
    rw [h3] at h
    cases h
    refine ⟨⟨fun _ => hs, fun _ => ?_⟩, fun hne => absurd hs hne⟩
    have htr : s'.trace = s.trace ++ (δ₁ ++ (δ₂ ++ δ₃)) := by
      rw [htr3, htr2, htr1]
      simp
    rw [htr, List.drop_left]
    simp only [List.mem_append]
    exact Or.inr (Or.inr hmem3)
  · have hse : stacks_empty s₂ = false := by
      rw [stacks_empty, hst2, hst1]
      cases hx : s.storedStacks with
      | nil => exact absurd hx hs
      | cons a l => rfl
    rw [hse] at h
    simp only [if_false, pure, Except.pure] at h
    cases h
    have htr : s'.trace = s.trace ++ (δ₁ ++ δ₂) := by
      rw [htr2, htr1]
      simp
    refine ⟨⟨fun hmem => ?_, fun heq => absurd heq hs⟩,
      fun _ => by rw [hst2, hst1]⟩
    rw [htr, List.drop_left] at hmem
    rcases List.mem_append.mp hmem with hm | hm
    · exact absurd hm hnot1
    · exact absurd hm hnot2

/-- Witness for C3: a bootstrap run over the already-seeded backend (a
stack exists) registers no stack and leaves the stack table unchanged. -/
theorem default_stack_iff_probe_witness :
    StoreAction.commit "register_stack"
      ∉ seededStore.trace.drop seededStore.trace.length
    ∧ seededStore.storedStacks = seededStore.storedStacks := by
  have h := default_stack_iff_probe seededStore seededStore (by rfl)
  exact ⟨fun hmem => absurd (h.1.mp hmem) (by decide), h.2 (by decide)⟩

/-! ### C4: contents of the default stack registration -/

/-- C4: when bootstrap step 4 runs (no stack exists, default user `u` and
project `p` resolvable, analytics on), it registers an orchestrator
component named `"default"` with flavor `"default"` and the
base64-encoded empty JSON configuration (`"e30="`), an artifact-store
component named `"default"` whose configuration path is derived from the
process-wide configuration root, then registers a stack named
`"default"` with `is_shared` true containing exactly those two
components, owned by the default user in the default project — and the
run appends exactly one Event Hook emission, the terminal
`REGISTERED_DEFAULT_STACK` event, after the three backend commits (the
component registrations emit nothing). -/
theorem register_default_stack_spec (s : ZenStore) (u : StoredUser)
    (p : StoredProject)
    (hu : s.users.find? (fun x => x.name = DEFAULT_USERNAME) = some u)
    (hp : s.projects.find? (fun x => x.name = DEFAULT_PROJECT_NAME) = some p)
    (hs : s.storedStacks = [])
    (htr : s.track_analytics = true) :
    register_default_stack s = .ok { s with
        stackComponents := s.stackComponents ++
          [⟨s.nextId, some u.id, some p.id, defaultOrchestrator⟩,
           ⟨s.nextId + 1, some u.id, some p.id,
             defaultArtifactStore s.configDirectory⟩]
        storedStacks := [⟨s.nextId + 2, "default",
            [defaultOrchestrator, defaultArtifactStore s.configDirectory],
            true, some u.id, some p.id⟩]
        nextId := s.nextId + 3
        trace := s.trace ++ [StoreAction.commit "register_stack_component",
          StoreAction.commit "register_stack_component",
          StoreAction.commit "register_stack",
          StoreAction.emit .REGISTERED_DEFAULT_STACK []] }
    ∧ encodedOrchestratorConfig = "e30="
    ∧ defaultArtifactStore s.configDirectory
        = ⟨"default", .ARTIFACT_STORE, "default",
            urlsafe_b64encode (strBytes (jsonDumpsPath
              (s.configDirectory ++ "/local_stores/default_local_store")))⟩ := by
  have hdict : dictByType [(⟨"default", .ORCHESTRATOR, "default",
        encodedOrchestratorConfig⟩ : ComponentModel),
      ⟨"default", .ARTIFACT_STORE, "default",
        encodedArtifactStoreConfig s.configDirectory⟩]
      = [⟨"default", .ORCHESTRATOR, "default", encodedOrchestratorConfig⟩,
         ⟨"default", .ARTIFACT_STORE, "default",
           encodedArtifactStoreConfig s.configDirectory⟩] :=
    dictByType_pair _ _ (by simp)
  have hmk : mkStackModel "default"
      [(⟨"default", .ORCHESTRATOR, "default",
          encodedOrchestratorConfig⟩ : ComponentModel),
       ⟨"default", .ARTIFACT_STORE, "default",
         encodedArtifactStoreConfig s.configDirectory⟩] true
      = .ok ⟨"default",
          [⟨"default", .ORCHESTRATOR, "default", encodedOrchestratorConfig⟩,
           ⟨"default", .ARTIFACT_STORE, "default",
             encodedArtifactStoreConfig s.configDirectory⟩], true⟩ :=
    mkStackModel_ok _ _ _ (by simp)
  refine ⟨?_, by rfl, by rfl⟩
  simp [register_default_stack, register_stack_component,
    registerStackComponentBackend, hdict, hmk, registerStackBackend, hs,
    trackEventIfEnabled, track_event, htr, default_user_id, get_user,
    getUserBackend, default_project_id, get_project, getProjectBackend,
    hu, hp, defaultOrchestrator, defaultArtifactStore]

/-- A backend holding only the default user and project, with no stack:
the state in which bootstrap step 4 runs. -/
def preparedStore : ZenStore :=
  { emptyStore with
    users := [⟨"default", 0⟩]
    projects := [⟨"default", 1⟩]
    nextId := 2 }

/-- Witness for C4: the default-stack registration evaluated over
`preparedStore`. -/
theorem register_default_stack_spec_witness :
    register_default_stack preparedStore = .ok { preparedStore with
        stackComponents :=
          [⟨2, some 0, some 1, defaultOrchestrator⟩,
           ⟨3, some 0, some 1, defaultArtifactStore "/root/.config/zenml"⟩]
        storedStacks := [⟨4, "default",
            [defaultOrchestrator, defaultArtifactStore "/root/.config/zenml"],
            true, some 0, some 1⟩]
        nextId := 5
        trace := [StoreAction.commit "register_stack_component",
          StoreAction.commit "register_stack_component",
          StoreAction.commit "register_stack",
          StoreAction.emit .REGISTERED_DEFAULT_STACK []] }
    ∧ encodedOrchestratorConfig = "e30=" := by
  have h := register_default_stack_spec preparedStore ⟨"default", 0⟩
    ⟨"default", 1⟩ (by decide) (by decide) (by decide) (by decide)
  refine ⟨?_, h.2.1⟩
  rw [h.1]
  rfl

/-! ### C5: no stack holds two components of the same type -/

/-- C5: constructing a `StackModel` whose component set contains two
components of the same component type fails validation (before any
persistence can be attempted); a successfully constructed model has
pairwise-distinct component types; and `register_stack` preserves the
invariant that no persisted stack contains two components of the same
type. -/
theorem stack_component_types_unique :
    (∀ (name : String) (components : List ComponentModel) (shared : Bool),
      ¬ (components.map ComponentModel.type).Nodup →
        mkStackModel name components shared = .error .validationError)
    ∧ (∀ (name : String) (components : List ComponentModel) (shared : Bool)
        (stack : StackModel),
        mkStackModel name components shared = .ok stack →
          (stack.components.map ComponentModel.type).Nodup)
    ∧ (∀ (uid pid : Option Nat) (stack : StackModel) (s : ZenStore)
        (r : StoredStack) (s' : ZenStore),
        (∀ st ∈ s.storedStacks,
          (st.components.map ComponentModel.type).Nodup) →
        (stack.components.map ComponentModel.type).Nodup →
        register_stack uid pid stack s = .ok (r, s') →
        ∀ st ∈ s'.storedStacks,
          (st.components.map ComponentModel.type).Nodup) := by
  refine ⟨?_, ?_, ?_⟩
  · intro name components shared h
    simp [mkStackModel, h]
  · intro name components shared stack h
    by_cases hn : (components.map ComponentModel.type).Nodup
    · rw [mkStackModel, if_pos hn] at h
      cases h
      exact hn
    · rw [mkStackModel, if_neg hn] at h
      cases h
  · intro uid pid stack s r s' hinv hstack h
    obtain ⟨b, eδ, hpair, _⟩ :=
      trackEventIfEnabled_state .REGISTERED_STACK
        (stackEventMetadata stack s) s
    simp only [register_stack, hpair] at h
    rw [registerStackBackend] at h
    by_cases hc : ({ s with trace := s.trace ++ eδ } : ZenStore).storedStacks.any
        (fun st => st.name = stack.name && st.owner = uid
          && st.project = pid) = true
    · rw [if_pos hc] at h
      simp at h
    · rw [if_neg hc] at h
      cases h
      intro st hmem
      rcases List.mem_append.mp hmem with hm | hm
      · exact hinv _ hm
      · rw [List.mem_singleton.mp hm]
        exact hstack

/-- Witness for C5: a duplicate-type component set is rejected at model
construction; a registered single-orchestrator stack keeps the
invariant. -/
theorem stack_component_types_unique_witness :
    mkStackModel "default" [defaultOrchestrator, defaultOrchestrator] true
      = .error .validationError
    ∧ ∀ st ∈ ({ emptyStore with
          storedStacks := [⟨0, "s1", [defaultOrchestrator], false, none, none⟩]
          nextId := 1
          trace := [StoreAction.emit .REGISTERED_STACK
              [("orchestrator", "default"), ("store_type", "sql")],
            StoreAction.commit "register_stack"] } : ZenStore).storedStacks,
        (st.components.map ComponentModel.type).Nodup :=
  ⟨stack_component_types_unique.1 "default"
      [defaultOrchestrator, defaultOrchestrator] true (by decide),
    stack_component_types_unique.2.2 none none
      ⟨"s1", [defaultOrchestrator], false⟩ emptyStore
      ⟨0, "s1", [defaultOrchestrator], false, none, none⟩ _
      (by decide) (by decide) (by rfl)⟩

/-! ### C2: emission order of the Event Hook -/

/-- Counterexample to C2 (as stated): on a concrete seeded store,
`create_user` appends its Event Hook emission BEFORE the backend
commit — not post-commit — and `delete_stack`, a mutating operation on a
user-facing entity, performs its backend mutation with no emission at
all ("No tracking events, here for consistency" in the source). -/
theorem event_hook_post_commit_counterexample :
    ((create_user ⟨"alice"⟩ seededStore).map (fun x => x.2.trace)
      = .ok [StoreAction.emit .CREATED_USER [],
             StoreAction.commit "create_user"])
    ∧ ((delete_stack 4 seededStore).map ZenStore.trace
      = .ok [StoreAction.commit "delete_stack"]) := by
  constructor <;> rfl

/-- C2 (amended): mutating operations that are routed through the Event
Hook (`create_user`, `create_project`, `register_stack`, `update_stack`)
emit one event carrying the operation tag and a metadata mapping, but
the emission is appended immediately BEFORE the backend commit, never
after it; `delete_stack` and `register_stack_component` perform their
backend mutation with no emission at all. -/
theorem event_hook_emission_order (s : ZenStore) :
    (∀ u r s₁, create_user u s = .ok (r, s₁) →
      s₁.trace = s.trace
        ++ (if s.track_analytics then [StoreAction.emit .CREATED_USER []]
            else [])
        ++ [StoreAction.commit "create_user"])
    ∧ (∀ pr r s₁, create_project pr s = .ok (r, s₁) →
      s₁.trace = s.trace
        ++ (if s.track_analytics then [StoreAction.emit .CREATED_PROJECT []]
            else [])
        ++ [StoreAction.commit "create_project"])
    ∧ (∀ uid pid stack r s₁, register_stack uid pid stack s = .ok (r, s₁) →
      s₁.trace = s.trace
        ++ (if s.track_analytics then
              [StoreAction.emit .REGISTERED_STACK (stackEventMetadata stack s)]
            else [])
        ++ [StoreAction.commit "register_stack"])
    ∧ (∀ i stack r s₁, update_stack i stack s = .ok (r, s₁) →
      s₁.trace = s.trace
        ++ [StoreAction.emit .UPDATED_STACK (stackEventMetadata stack s)]
        ++ [StoreAction.commit "update_stack"])
    ∧ (∀ i s₁, delete_stack i s = .ok s₁ →
      s₁.trace = s.trace ++ [StoreAction.commit "delete_stack"])
    ∧ (∀ uid pid c,
      ((register_stack_component uid pid c s).2).trace
        = s.trace ++ [StoreAction.commit "register_stack_component"]) := by
  refine ⟨?_, ?_, ?_, ?_, ?_, fun uid pid c => rfl⟩
  · intro u r s₁ h
    obtain ⟨b, eδ, hpair, -, hδ⟩ :=
      trackEventIfEnabled_state .CREATED_USER [] s
    simp only [create_user, hpair] at h
    rw [createUserBackend] at h
    by_cases hc : ({ s with trace := s.trace ++ eδ } : ZenStore).users.any
        (fun x => x.name = u.name) = true
    · rw [if_pos hc] at h
      simp at h
    · rw [if_neg hc] at h
      cases h
      simp [hδ]
  · intro pr r s₁ h
    obtain ⟨b, eδ, hpair, -, hδ⟩ :=
      trackEventIfEnabled_state .CREATED_PROJECT [] s
    simp only [create_project, hpair] at h
    rw [createProjectBackend] at h
    by_cases hc : ({ s with trace := s.trace ++ eδ } : ZenStore).projects.any
        (fun x => x.name = pr.name) = true
    · rw [if_pos hc] at h
      simp at h
    · rw [if_neg hc] at h
      cases h
      simp [hδ]
  · intro uid pid stack r s₁ h
    obtain ⟨b, eδ, hpair, -, hδ⟩ :=
      trackEventIfEnabled_state .REGISTERED_STACK
        (stackEventMetadata stack s) s
    simp only [register_stack, hpair] at h
    rw [registerStackBackend] at h
    by_cases hc : ({ s with trace := s.trace ++ eδ } : ZenStore).storedStacks.any
        (fun st => st.name = stack.name && st.owner = uid
          && st.project = pid) = true
    · rw [if_pos hc] at h
      simp at h
    · rw [if_neg hc] at h
      cases h
      simp [hδ]
  · intro i stack r s₁ h
    cases hfind : s.storedStacks.find? (fun st => st.id = i) with
    | none =>
      simp only [update_stack, track_event, updateStackBackend, hfind] at h
      cases h
    | some old =>
      simp only [update_stack, track_event, updateStackBackend, hfind] at h
      cases h
      simp [stackEventMetadata]
  · intro i s₁ h
    by_cases hc : s.storedStacks.any (fun st => st.id = i) = true
      <;> simp only [delete_stack, deleteStackBackend, hc, ite_true,
        ite_false] at h
    · cases h
      rfl
    · cases h

/-- Witness for C2 (amended): the emission-before-commit shape of a
concrete `create_user` run and the emission-free `delete_stack` run. -/
theorem event_hook_emission_order_witness :
    ({ seededStore with
        users := seededStore.users ++ [⟨"alice", 5⟩]
        nextId := 6
        trace := [StoreAction.emit .CREATED_USER [],
          StoreAction.commit "create_user"] } : ZenStore).trace
      = seededStore.trace
        ++ (if seededStore.track_analytics then
              [StoreAction.emit .CREATED_USER []] else [])
        ++ [StoreAction.commit "create_user"]
    ∧ ({ seededStore with
          storedStacks := []
          trace := [StoreAction.commit "delete_stack"] } : ZenStore).trace
      = seededStore.trace ++ [StoreAction.commit "delete_stack"] :=
  ⟨(event_hook_emission_order seededStore).1 ⟨"alice"⟩ ⟨"alice", 5⟩ _ (by rfl),
    (event_hook_emission_order seededStore).2.2.2.2.1 4 _ (by rfl)⟩

/-! ### C10: independence from the analytics flag -/

@[simp]
lemma emitsOf_append (l₁ l₂ : List StoreAction) :
    emitsOf (l₁ ++ l₂) = emitsOf l₁ ++ emitsOf l₂ := by
  simp [emitsOf]

/-- C10: for the store operations routed through `_track_event`
(`create_user`, `create_project`, `register_stack` here), the returned
value and the backend state are independent of `track_analytics`, and
with `track_analytics = false` no emission is appended; `update_stack`
is equally flag-independent in its result, but it calls the module-level
`track_event` directly and therefore emits `UPDATED_STACK` even when
`track_analytics` is false. -/
theorem analytics_flag_noninterference (s : ZenStore) (b₁ b₂ : Bool) :
    (∀ u, (create_user u { s with track_analytics := b₁ }).map
        (fun x => (x.1, coreOf x.2))
      = (create_user u { s with track_analytics := b₂ }).map
        (fun x => (x.1, coreOf x.2)))
    ∧ (∀ pr, (create_project pr { s with track_analytics := b₁ }).map
        (fun x => (x.1, coreOf x.2))
      = (create_project pr { s with track_analytics := b₂ }).map
        (fun x => (x.1, coreOf x.2)))
    ∧ (∀ uid pid stack,
      (register_stack uid pid stack { s with track_analytics := b₁ }).map
        (fun x => (x.1, coreOf x.2))
      = (register_stack uid pid stack { s with track_analytics := b₂ }).map
        (fun x => (x.1, coreOf x.2)))
    ∧ (∀ i stack,
      (update_stack i stack { s with track_analytics := b₁ }).map
        (fun x => (x.1, coreOf x.2))
      = (update_stack i stack { s with track_analytics := b₂ }).map
        (fun x => (x.1, coreOf x.2)))
    ∧ (∀ u r s₁,
      create_user u { s with track_analytics := false } = .ok (r, s₁) →
        emitsOf s₁.trace = emitsOf s.trace)
    ∧ (∀ pr r s₁,
      create_project pr { s with track_analytics := false } = .ok (r, s₁) →
        emitsOf s₁.trace = emitsOf s.trace)
    ∧ (∀ uid pid stack r s₁,
      register_stack uid pid stack { s with track_analytics := false }
        = .ok (r, s₁) →
        emitsOf s₁.trace = emitsOf s.trace)
    ∧ (∀ i stack r s₁,
      update_stack i stack { s with track_analytics := false }
        = .ok (r, s₁) →
        emitsOf s₁.trace
          = emitsOf s.trace
            ++ [(.UPDATED_STACK, stackEventMetadata stack s)]) := by
  refine ⟨?_, ?_, ?_, ?_, ?_, ?_, ?_, ?_⟩
  · intro u
    by_cases hc : s.users.any (fun x => x.name = u.name) = true
      <;> cases b₁ <;> cases b₂
      <;> simp [create_user, trackEventIfEnabled, track_event,
        createUserBackend, coreOf, hc, Except.map]
  · intro pr
    by_cases hc : s.projects.any (fun x => x.name = pr.name) = true
      <;> cases b₁ <;> cases b₂
      <;> simp [create_project, trackEventIfEnabled, track_event,
        createProjectBackend, coreOf, hc, Except.map]
  · intro uid pid stack
    by_cases hc : s.storedStacks.any (fun st =>
        st.name = stack.name && st.owner = uid && st.project = pid) = true
      <;> cases b₁ <;> cases b₂
      <;> simp [register_stack, trackEventIfEnabled, track_event,
        registerStackBackend, stackEventMetadata, coreOf, hc, Except.map]
  · intro i stack
    cases hfind : s.storedStacks.find? (fun st => st.id = i)
      <;> simp [update_stack, track_event, updateStackBackend,
        stackEventMetadata, coreOf, hfind, Except.map]
  · intro u r s₁ h
    obtain ⟨b, eδ, hpair, -, hδ⟩ := trackEventIfEnabled_state .CREATED_USER []
      { s with track_analytics := false }
    simp only [create_user, hpair] at h
    rw [createUserBackend] at h
    split at h
    · exact absurd h (by simp)
    · cases h
      simp [hδ, emitsOf]
  · intro pr r s₁ h
    obtain ⟨b, eδ, hpair, -, hδ⟩ := trackEventIfEnabled_state .CREATED_PROJECT []
      { s with track_analytics := false }
    simp only [create_project, hpair] at h
    rw [createProjectBackend] at h
    split at h
    · exact absurd h (by simp)
    · cases h
      simp [hδ, emitsOf]
  · intro uid pid stack r s₁ h
    obtain ⟨b, eδ, hpair, -, hδ⟩ :=
      trackEventIfEnabled_state .REGISTERED_STACK
        (stackEventMetadata stack { s with track_analytics := false })
        { s with track_analytics := false }
    simp only [register_stack, hpair] at h
    rw [registerStackBackend] at h
    split at h
    · exact absurd h (by simp)
    · cases h
      simp [hδ, emitsOf]
  · intro i stack r s₁ h
    cases hfind : ({ s with track_analytics := false } : ZenStore).storedStacks.find?
        (fun st => st.id = i) with
    | none =>
      simp only [update_stack, track_event, updateStackBackend, hfind] at h
      cases h
    | some old =>
      simp only [update_stack, track_event, updateStackBackend, hfind] at h
      cases h
      simp [emitsOf, stackEventMetadata]

/-- Witness for C10: `create_user` over the seeded store returns the
same user and backend with the flag on or off, and with the flag off the
run appends no emission. -/
theorem analytics_flag_noninterference_witness :
    (create_user ⟨"alice"⟩ { seededStore with track_analytics := true }).map
        (fun x => (x.1, coreOf x.2))
      = (create_user ⟨"alice"⟩ { seededStore with track_analytics := false }).map
        (fun x => (x.1, coreOf x.2))
    ∧ emitsOf ({ seededStore with
        users := seededStore.users ++ [⟨"alice", 5⟩]
        nextId := 6
        trace := [StoreAction.commit "create_user"]
        track_analytics := false } : ZenStore).trace
      = emitsOf seededStore.trace :=
  ⟨(analytics_flag_noninterference seededStore true false).1 ⟨"alice"⟩,
    (analytics_flag_noninterference seededStore true false).2.2.2.2.1
      ⟨"alice"⟩ ⟨"alice", 5⟩ _ (by rfl)⟩
